import Mathlib

/-!
Shallow embedding of the movie-conversion parts of `nwb-conversion-tools`
(files `datainterfaces/behavior/movie/movie_utils.py`,
`datainterfaces/behavior/movie/moviedatainterface.py` and
`utils/conversion_tools.py`), together with theorems settling the spec
claims about them.

Timestamps are modelled as rationals; numpy arrays of timestamps as
`List ℚ`; frames as a shape plus a flat pixel list where `Option.none`
encodes the not-a-number sentinel.  Python exceptions are modelled with
an explicit error type; a Python method that mutates `self` becomes a
function returning the new state together with its result.
-/

namespace NwbConv

/-! ## `utils/conversion_tools.py` -/

/-- Round-half-to-even of a rational to an integer, the rounding rule used
by `numpy.round`. -/
def roundHalfEven (x : ℚ) : ℤ :=
  let f := ⌊x⌋
  let r := x - (f : ℚ)
  if r < 1/2 then f
  else if 1/2 < r then f + 1
  else if f % 2 = 0 then f else f + 1

/-- `x.round(decimals = d)` of numpy on one element. -/
def roundDecimals (d : ℕ) (x : ℚ) : ℚ :=
  (roundHalfEven (x * 10 ^ d) : ℚ) / 10 ^ d

/-- `np.diff(ts)`: the list of consecutive differences. -/
def npDiff (ts : List ℚ) : List ℚ :=
  List.zipWith (fun a b => b - a) ts ts.tail

/-- `np.diff(ts).round(decimals=9)` with `time_tol_decimals = 9`:
the consecutive differences rounded to 9 decimal places. -/
def roundedDiffs (ts : List ℚ) : List ℚ :=
  (npDiff ts).map (roundDecimals 9)

/-- `check_regular_timestamps` (conversion_tools.py lines 14-18):
`np.unique(np.diff(ts).round(decimals=9))` has exactly one element.
`List.dedup` has the same length as `np.unique` (sorted distinct values). -/
def check_regular_timestamps (ts : List ℚ) : Bool :=
  let uniq_diff_ts := (roundedDiffs ts).dedup
  uniq_diff_ts.length == 1

/-! ## `moviedatainterface.py`, buffer sizing (lines 130-137)

In embedded (`external_mode = False`) mode `run_conversion` computes
`uncompressed_estimate = file_size * 70` and, when the caller passed
`chunk_data = False` but the estimate is at least the available memory,
issues a (non-fatal) warning and forces `chunk_data = True`.  The policy
is modelled as a pure function of the requested `chunk_data`, the file
size and the available memory, returning the effective `chunk_data`
together with whether the warning was emitted; emitting the warning does
not abort, matching Python's non-raising `warnings.warn`. -/

/-- `uncompressed_estimate = Path(file).stat().st_size * 70`. -/
def uncompressedEstimate (fileSize : ℕ) : ℕ := fileSize * 70

/-- The embedded-mode buffer-sizing decision of `run_conversion`:
returns `(effective chunk_data, warning emitted)`. -/
def bufferPolicy (chunkData : Bool) (fileSize availableMemory : ℕ) :
    Bool × Bool :=
  if !chunkData && decide (uncompressedEstimate fileSize ≥ availableMemory) then
    (true, true)
  else
    (chunkData, false)

/-! ## `movie_utils.py`: `VideoCaptureContext`

The cv2 backend of a video file is modelled by `Backend`: the true frame
count, the decoded content of each frame, which frame indices decode
successfully (`readOk`), which seeks succeed (`seekOk`) and whether
opening the file succeeds at all (`openOk`).  A `Vcc` is the Python
object's state: the backend it was constructed on (`self._args`), the
cv2-side fields (`opened`, the internal read position `pos`) and the
Python-side fields `stub`, `_current_frame`, the cached `frame_count`
and `self.frame` (`none` while the attribute is still unset). -/

/-- A frame buffer: its numpy shape and flat pixel data; a pixel of
`Option.none` encodes the not-a-number sentinel. -/
structure Frame where
  shape : List ℕ
  data : List (Option ℚ)
deriving DecidableEq, Repr

/-- `np.nan * np.ones(shape)`: a buffer of the given shape with every
pixel the not-a-number sentinel. -/
def nanFrame (shape : List ℕ) : Frame :=
  ⟨shape, List.replicate (shape.foldr (· * ·) 1) Option.none⟩

/-- Python exceptions raised by the `VideoCaptureContext` methods. -/
inductive CvErr where
  | valueError (msg : String)
  | assertionError (msg : String)
  | attributeError
deriving DecidableEq, Repr

/-- The cv2 side of a video file. -/
structure Backend where
  count : ℕ
  frames : ℕ → Frame
  readOk : ℕ → Bool
  seekOk : ℕ → Bool
  openOk : Bool
  fps : ℚ

/-- State of a `VideoCaptureContext` object. -/
structure Vcc where
  backend : Backend
  opened : Bool
  pos : ℕ
  stub : Bool
  currentFrame : ℕ
  frameCountCache : ℕ
  frame : Option Frame

namespace Vcc

/-- `cv2.VideoCapture.release()`: closes the capture; releasing an
already-released capture is a no-op. -/
def release (s : Vcc) : Vcc := { s with opened := false }

/-- `cv2.VideoCapture.__init__(*self._args)` on an existing object:
reopens the same file, resetting the read position. -/
def reopen (s : Vcc) : Vcc :=
  if s.opened then s else { s with opened := s.backend.openOk, pos := 0 }

/-- `get_movie_frame_count` (movie_utils.py lines 67-79): in stub mode
returns 10, otherwise `int(self.get(cv2.CAP_PROP_FRAME_COUNT))` (0 on a
released capture, the true count on an open one). -/
def get_movie_frame_count (s : Vcc) : ℕ :=
  if s.stub then 10
  else if s.opened then s.backend.count else 0

/-- The `current_frame` property setter (lines 85-95):
`cv2.set(CAP_PROP_POS_FRAMES, n)` returns `False` on a released capture
or a failed seek, in which case the setter raises `ValueError` and the
state is unchanged; on success both the cv2 position and
`self._current_frame` become `n`. -/
def setCurrentFrame (s : Vcc) (n : ℕ) : Vcc × Except CvErr Unit :=
  if s.opened && s.backend.seekOk n then
    ({ s with pos := n, currentFrame := n }, Except.ok ())
  else
    (s, Except.error (CvErr.valueError ("could not set frame no " ++ toString n)))

/-- `cv2.VideoCapture.read()`: succeeds iff the capture is open, the
position is before the end of the stream and that frame decodes; on
success returns the frame and advances the position. -/
def readFrame (s : Vcc) : Vcc × Option Frame :=
  if s.opened && decide (s.pos < s.backend.count) && s.backend.readOk s.pos then
    ({ s with pos := s.pos + 1 }, some (s.backend.frames s.pos))
  else (s, Option.none)

/-- `get_frame_shape` (lines 61-65): `self.frame.shape`; accessing it
before `self.frame` is set raises `AttributeError`. -/
def get_frame_shape (s : Vcc) : Except CvErr (List ℕ) :=
  match s.frame with
  | some f => Except.ok f.shape
  | Option.none => Except.error CvErr.attributeError

/-- `get_movie_frame` (lines 97-110).  Raises `ValueError` on a closed
handle and `AssertionError` when `frame_no` is not below
`get_movie_frame_count()`; otherwise seeks to `frame_no`, reads, seeks
back to 0, and returns the frame on success, a same-shape nan buffer on
failure at `frame_no > 0`, and `None` (no value) on failure at
`frame_no = 0`. -/
def get_movie_frame (s : Vcc) (frame_no : ℕ) :
    Vcc × Except CvErr (Option Frame) :=
  if !s.opened then
    (s, Except.error (CvErr.valueError "movie file is not open"))
  else if !decide (frame_no < s.get_movie_frame_count) then
    (s, Except.error
      (CvErr.assertionError "frame number is greater than length of movie"))
  else
    match s.setCurrentFrame frame_no with
    | (s, Except.error e) => (s, Except.error e)
    | (s, Except.ok ()) =>
      let (s, fr) := s.readFrame
      match s.setCurrentFrame 0 with
      | (s, Except.error e) => (s, Except.error e)
      | (s, Except.ok ()) =>
        match fr with
        | some f => (s, Except.ok (some f))
        | Option.none =>
          if frame_no > 0 then
            match s.get_frame_shape with
            | Except.ok sh => (s, Except.ok (some (nanFrame sh)))
            | Except.error e => (s, Except.error e)
          else (s, Except.ok Option.none)

/-- `VideoCaptureContext.__init__` (lines 27-36): opens the file, sets
`stub`, `_current_frame = 0`, caches `frame_count`, reads frame 0 via
`get_movie_frame(0)`, and asserts the result is not `None`. -/
def init (b : Backend) (stub : Bool) : Except CvErr Vcc :=
  let s : Vcc :=
    { backend := b, opened := b.openOk, pos := 0, stub := stub,
      currentFrame := 0, frameCountCache := 0, frame := Option.none }
  let s := { s with frameCountCache := s.get_movie_frame_count }
  match s.get_movie_frame 0 with
  | (_, Except.error e) => Except.error e
  | (s, Except.ok fr) =>
    match fr with
    | some f => Except.ok { s with frame := some f }
    | Option.none =>
      Except.error (CvErr.assertionError "unable to read the movie file provided")

/-- The body of the `try` block of `__next__` (lines 124-137).  A result
of `Except.ok` paired with `Option.none` is the `StopIteration` raised in
the `else` branch; an `Except.error` is any other exception raised inside
the block (the state at the moment of the raise is returned with it). -/
def nextBody (s : Vcc) : Vcc × Except CvErr (Option Frame) :=
  if s.currentFrame < s.frameCountCache then
    match s.setCurrentFrame s.currentFrame with
    | (s, Except.error e) => (s, Except.error e)
    | (s, Except.ok ()) =>
      let (s, fr) := s.readFrame
      let s := { s with currentFrame := s.currentFrame + 1 }
      let s := s.release
      match fr with
      | some f => (s, Except.ok (some f))
      | Option.none =>
        match s.get_frame_shape with
        | Except.ok sh => (s, Except.ok (some (nanFrame sh)))
        | Except.error e => (s, Except.error e)
  else
    (Vcc.release { s with currentFrame := 0 }, Except.ok Option.none)

/-- `__next__` (lines 121-139): reopens a released capture, runs the
`try` body, and converts every exception raised inside it into
`StopIteration`; `Option.none` is `StopIteration`, the only exception
`__next__` itself ever raises. -/
def next (s : Vcc) : Vcc × Option Frame :=
  let s := s.reopen
  match s.nextBody with
  | (s, Except.ok r) => (s, r)
  | (s, Except.error _) => (s, Option.none)

/-- `__exit__` (lines 146-147): releases the capture. -/
def exitCtx (s : Vcc) : Vcc := s.release

end Vcc

/-! ## `moviedatainterface.py`, starting times (lines 94-116)

`run_conversion` iterates over `file_paths`; for each file `j` it shifts
that file's movie timestamps by `starting_times[j]` and, while
`len(starting_times) != len(file_paths)`, appends the last shifted
timestamp so it becomes the next file's start.  The per-file movie
timestamps (`vc.get_movie_timestamps()`, always at least one element in
a real run) are abstracted as the input `List (List ℚ)`.

`starting_times[j]` and `timestamps[-1]` are total here via `getD` /
`getLastD`; the defaults are unreachable in the modelled runs: the
index `j` is always in range (provided lists are length-checked, the
omitted case keeps `len(starting_times) = j + 1`), and the timestamp
arrays are nonempty. -/

/-- The `for j, file in enumerate(file_paths)` loop restricted to the
timestamp computation: `n` is `len(file_paths)`, `starts` the current
`starting_times` list, `j` the loop index; returns the shifted
timestamp array of each file. -/
def convLoop (n : ℕ) : List (List ℚ) → List ℚ → ℕ → List (List ℚ)
  | [], _, _ => []
  | ts :: rest, starts, j =>
    let shifted := ts.map (starts.getD j 0 + ·)
    let starts :=
      if starts.length ≠ n then starts ++ [shifted.getLastD 0] else starts
    shifted :: convLoop n rest starts (j + 1)

/-- The starting-times handling of `run_conversion` (lines 94-116):
with explicit `starting_times` the assert requires one start per file,
otherwise the loop runs with `starting_times = [0.0]`. -/
def runConvTimestamps (fileTs : List (List ℚ)) (startingTimes : Option (List ℚ)) :
    Except String (List (List ℚ)) :=
  match startingTimes with
  | some st =>
    if st.length = fileTs.length then
      Except.ok (convLoop fileTs.length fileTs st 0)
    else
      Except.error ("Argument 'starting_times' must be a list of floats " ++
        "in one-to-one correspondence with 'file_paths'!")
  | Option.none => Except.ok (convLoop fileTs.length fileTs [0] 0)

/-- Reference chaining recursion: shift the first file by `b`, every
later file by the last shifted timestamp of its predecessor. -/
def chainStarts (b : ℚ) : List (List ℚ) → List (List ℚ)
  | [] => []
  | ts :: rest =>
    let shifted := ts.map (b + ·)
    shifted :: chainStarts (shifted.getLastD 0) rest

/-! ## Concrete instances

Concrete backends and handle states used in counterexamples and
witnesses.  `wfHandle` is exactly the state `VideoCaptureContext.__init__`
produces on a well-behaved two-frame file. -/

/-- A concrete 2×2×3 frame. -/
def okFrame : Frame := ⟨[2, 2, 3], List.replicate 12 (some 1)⟩

/-- A well-behaved `n`-frame file: opening, every seek and every
in-range decode succeed. -/
def okBackend (n : ℕ) : Backend :=
  { count := n, frames := fun _ => okFrame, readOk := fun _ => true,
    seekOk := fun _ => true, openOk := true, fps := 25 }

/-- The handle produced by a successful `__init__` on `okBackend 2`. -/
def wfHandle : Vcc :=
  { backend := okBackend 2, opened := true, pos := 0, stub := false,
    currentFrame := 0, frameCountCache := 2, frame := some okFrame }

/-- A stub-mode handle over a 3-frame file. -/
def stubHandle3 : Vcc :=
  { backend := okBackend 3, opened := true, pos := 0, stub := true,
    currentFrame := 0, frameCountCache := 10, frame := some okFrame }

/-- The `wfHandle` state after a full iteration pass: released,
cursor back at the frame count before the final resetting step. -/
def exhaustedHandle : Vcc :=
  { backend := okBackend 2, opened := false, pos := 2, stub := false,
    currentFrame := 2, frameCountCache := 2, frame := some okFrame }

/-- A 3-frame file whose frame 1 fails to decode. -/
def failAt1Backend : Backend :=
  { count := 3, frames := fun _ => okFrame, readOk := fun j => decide (j ≠ 1),
    seekOk := fun _ => true, openOk := true, fps := 25 }

/-- An open handle over `failAt1Backend`. -/
def failAt1Handle : Vcc :=
  { backend := failAt1Backend, opened := true, pos := 0, stub := false,
    currentFrame := 0, frameCountCache := 3, frame := some okFrame }

/-- A 3-frame file whose frame 0 fails to decode. -/
def failAt0Backend : Backend :=
  { count := 3, frames := fun _ => okFrame, readOk := fun j => decide (0 < j),
    seekOk := fun _ => true, openOk := true, fps := 25 }

/-- A file on which every seek fails. -/
def badSeekBackend : Backend :=
  { count := 2, frames := fun _ => okFrame, readOk := fun _ => true,
    seekOk := fun _ => false, openOk := true, fps := 25 }

/-- An open handle over `badSeekBackend`. -/
def badSeekHandle : Vcc :=
  { backend := badSeekBackend, opened := true, pos := 0, stub := false,
    currentFrame := 0, frameCountCache := 2, frame := some okFrame }

/-! ## Helper lemmas -/

/-- Rounding an integer-valued rational at any precision is the identity. -/
lemma roundHalfEven_intCast (n : ℤ) : roundHalfEven (n : ℚ) = n := by
  unfold roundHalfEven
  norm_num [Int.floor_intCast]

lemma roundDecimals_intCast (d : ℕ) (n : ℤ) :
    roundDecimals d (n : ℚ) = (n : ℚ) := by
  unfold roundDecimals
  have hcast : (n : ℚ) * 10 ^ d = ((n * 10 ^ d : ℤ) : ℚ) := by push_cast; ring
  rw [hcast, roundHalfEven_intCast]
  have h10 : ((10 : ℚ) ^ d) ≠ 0 := by positivity
  push_cast
  field_simp

/-- A list has a one-element `dedup` iff it is nonempty and all its
elements are equal to each other. -/
lemma dedup_length_eq_one_iff {α : Type} [DecidableEq α] (l : List α) :
    l.dedup.length = 1 ↔ (l ≠ [] ∧ ∀ x ∈ l, ∀ y ∈ l, x = y) := by
  constructor
  · intro h
    obtain ⟨a, ha⟩ := List.length_eq_one.mp h
    constructor
    · rintro rfl
      simp at ha
    · intro x hx y hy
      have hx1 : x ∈ l.dedup := List.mem_dedup.mpr hx
      have hy1 : y ∈ l.dedup := List.mem_dedup.mpr hy
      rw [ha] at hx1 hy1
      simp at hx1 hy1
      rw [hx1, hy1]
  · rintro ⟨hne, hall⟩
    obtain ⟨c, t, rfl⟩ := List.exists_cons_of_ne_nil hne
    have hc : c ∈ (c :: t).dedup := List.mem_dedup.mpr (List.mem_cons_self c t)
    have hmem : ∀ x ∈ (c :: t).dedup, x = c := fun x hx =>
      hall x (List.mem_dedup.mp hx) c (List.mem_cons_self c t)
    have hnd : (c :: t).dedup.Nodup := List.nodup_dedup _
    match hd : (c :: t).dedup with
    | [] => rw [hd] at hc; simp at hc
    | a :: u =>
      rw [hd] at hmem hnd
      have ha : a = c := hmem a (List.mem_cons_self a u)
      have hu : u = [] := by
        match u with
        | [] => rfl
        | b :: v =>
          have hb : b = c := hmem b (by simp)
          have : a ∉ b :: v := (List.nodup_cons.mp hnd).1
          rw [ha, hb] at this
          simp at this
      rw [hu]
      rfl

lemma npDiff_length (ts : List ℚ) : (npDiff ts).length = ts.length - 1 := by
  unfold npDiff
  rw [List.length_zipWith, List.length_tail]
  omega

lemma roundDecimals_nat (d : ℕ) (n : ℕ) : roundDecimals d (n : ℚ) = n := by
  have h := roundDecimals_intCast d (n : ℤ)
  push_cast at h
  exact h

lemma roundedDiffs_ex1 : roundedDiffs [0, 40, 80, 120] = [40, 40, 40] := by
  have h40 : roundDecimals 9 (40 : ℚ) = 40 := by
    have h := roundDecimals_nat 9 40
    push_cast at h
    exact h
  simp [roundedDiffs, npDiff]
  norm_num [h40]

lemma roundedDiffs_ex2 : roundedDiffs [0, 40, 85, 120] = [40, 45, 35] := by
  have h40 : roundDecimals 9 (40 : ℚ) = 40 := by
    have h := roundDecimals_nat 9 40
    push_cast at h
    exact h
  have h45 : roundDecimals 9 (45 : ℚ) = 45 := by
    have h := roundDecimals_nat 9 45
    push_cast at h
    exact h
  have h35 : roundDecimals 9 (35 : ℚ) = 35 := by
    have h := roundDecimals_nat 9 35
    push_cast at h
    exact h
  simp [roundedDiffs, npDiff]
  norm_num [h40, h45, h35]

/-! ## Evaluation lemmas for `VideoCaptureContext` -/

lemma setCurrentFrame_ok (s : Vcc) (n : ℕ) (h1 : s.opened = true)
    (h2 : s.backend.seekOk n = true) :
    s.setCurrentFrame n = ({ s with pos := n, currentFrame := n }, Except.ok ()) := by
  unfold Vcc.setCurrentFrame
  rw [h1, h2]
  rfl

lemma readFrame_ok (s : Vcc) (h1 : s.opened = true)
    (h2 : s.pos < s.backend.count) (h3 : s.backend.readOk s.pos = true) :
    s.readFrame = ({ s with pos := s.pos + 1 }, some (s.backend.frames s.pos)) := by
  unfold Vcc.readFrame
  rw [h1, decide_eq_true h2, h3]
  rfl

lemma readFrame_fail_decode (s : Vcc) (h3 : s.backend.readOk s.pos = false) :
    s.readFrame = (s, Option.none) := by
  unfold Vcc.readFrame
  rw [h3]
  simp

lemma readFrame_fail_eof (s : Vcc) (h2 : ¬ s.pos < s.backend.count) :
    s.readFrame = (s, Option.none) := by
  unfold Vcc.readFrame
  rw [decide_eq_false h2]
  simp

/-- Successful path of `get_movie_frame`. -/
lemma get_movie_frame_read_ok (s : Vcc) (i : ℕ) (hopen : s.opened = true)
    (hfc : i < s.get_movie_frame_count)
    (hsi : s.backend.seekOk i = true) (hs0 : s.backend.seekOk 0 = true)
    (hc : i < s.backend.count) (hr : s.backend.readOk i = true) :
    s.get_movie_frame i =
      ({ s with pos := 0, currentFrame := 0 },
        Except.ok (some (s.backend.frames i))) := by
  simp only [Vcc.get_movie_frame, hopen, decide_eq_true hfc, Bool.not_true,
    Bool.false_eq_true, if_false, setCurrentFrame_ok, readFrame_ok, hsi, hs0,
    hc, hr]

/-- Failed read at a positive index: `get_movie_frame` substitutes the
nan sentinel buffer shaped like `self.frame`. -/
lemma get_movie_frame_fail_pos (s : Vcc) (i : ℕ) (f0 : Frame)
    (hopen : s.opened = true) (hfc : i < s.get_movie_frame_count)
    (hsi : s.backend.seekOk i = true) (hs0 : s.backend.seekOk 0 = true)
    (hfail : s.backend.readOk i = false ∨ ¬ i < s.backend.count)
    (hz : 0 < i) (hf : s.frame = some f0) :
    s.get_movie_frame i =
      ({ s with pos := 0, currentFrame := 0 },
        Except.ok (some (nanFrame f0.shape))) := by
  have hread :
      Vcc.readFrame { s with opened := true, pos := i, currentFrame := i, frame := some f0 } =
        ({ s with opened := true, pos := i, currentFrame := i, frame := some f0 },
          Option.none) := by
    rcases hfail with hfail | hfail
    · exact readFrame_fail_decode _ hfail
    · exact readFrame_fail_eof _ hfail
  simp only [Vcc.get_movie_frame, hopen, hf, decide_eq_true hfc, Bool.not_true,
    Bool.false_eq_true, if_false, setCurrentFrame_ok, hsi, hs0, hread,
    Vcc.get_frame_shape, hz, if_pos, gt_iff_lt]

/-- Failed read at index 0: `get_movie_frame` returns no value. -/
lemma get_movie_frame_fail_zero (s : Vcc)
    (hopen : s.opened = true) (hfc : 0 < s.get_movie_frame_count)
    (hs0 : s.backend.seekOk 0 = true)
    (hfail : s.backend.readOk 0 = false ∨ ¬ 0 < s.backend.count) :
    s.get_movie_frame 0 =
      ({ s with pos := 0, currentFrame := 0 }, Except.ok Option.none) := by
  have hread :
      Vcc.readFrame { s with opened := true, pos := 0, currentFrame := 0 } =
        ({ s with opened := true, pos := 0, currentFrame := 0 }, Option.none) := by
    rcases hfail with hfail | hfail
    · exact readFrame_fail_decode _ hfail
    · exact readFrame_fail_eof _ hfail
  simp only [Vcc.get_movie_frame, hopen, decide_eq_true hfc, Bool.not_true,
    Bool.false_eq_true, if_false, setCurrentFrame_ok, hs0, hread,
    gt_iff_lt, lt_self_iff_false, if_false]

/-- Out-of-range index: the assert raises. -/
lemma get_movie_frame_oob (s : Vcc) (i : ℕ) (hopen : s.opened = true)
    (hfc : ¬ i < s.get_movie_frame_count) :
    s.get_movie_frame i =
      (s, Except.error
        (CvErr.assertionError "frame number is greater than length of movie")) := by
  simp only [Vcc.get_movie_frame, hopen, decide_eq_false hfc, Bool.not_true,
    Bool.false_eq_true, if_false, Bool.not_false, if_true]

/-- `__init__` on a file whose frame 0 does not decode fails with the
"unable to read the movie file provided" assertion. -/
lemma init_read0_fail (b : Backend) (st : Bool) (hbo : b.openOk = true)
    (hbs : b.seekOk 0 = true) (hbr : b.readOk 0 = false) (hbc : 0 < b.count) :
    Vcc.init b st =
      Except.error (CvErr.assertionError "unable to read the movie file provided") := by
  unfold Vcc.init
  dsimp only
  rw [hbo]
  have hfc : (0 : ℕ) < Vcc.get_movie_frame_count
      { backend := b, opened := true, pos := 0, stub := st, currentFrame := 0,
        frameCountCache := Vcc.get_movie_frame_count
          { backend := b, opened := true, pos := 0, stub := st,
            currentFrame := 0, frameCountCache := 0, frame := Option.none },
        frame := Option.none } := by
    unfold Vcc.get_movie_frame_count
    cases st <;> simp [hbc]
  rw [get_movie_frame_fail_zero _ rfl hfc hbs (Or.inl hbr)]

lemma reopen_currentFrame (s : Vcc) : (s.reopen).currentFrame = s.currentFrame := by
  unfold Vcc.reopen
  split <;> rfl

lemma reopen_frameCountCache (s : Vcc) :
    (s.reopen).frameCountCache = s.frameCountCache := by
  unfold Vcc.reopen
  split <;> rfl

lemma reopen_backend (s : Vcc) : (s.reopen).backend = s.backend := by
  unfold Vcc.reopen
  split <;> rfl

/-- A step past the end: `__next__` resets the cursor, releases the
capture and raises `StopIteration`. -/
lemma next_exhausted (s : Vcc) (h : s.frameCountCache ≤ s.currentFrame) :
    s.next = (Vcc.release { s.reopen with currentFrame := 0 }, Option.none) := by
  have hcond : ¬ ((s.reopen).currentFrame < (s.reopen).frameCountCache) := by
    rw [reopen_currentFrame, reopen_frameCountCache]
    omega
  simp only [Vcc.next, Vcc.nextBody, if_neg hcond]

/-- A successful step of `__next__` (reopening the capture if needed). -/
lemma next_yield (s : Vcc) (hcf : s.currentFrame < s.frameCountCache)
    (hop : s.opened = true ∨ s.backend.openOk = true)
    (hseek : s.backend.seekOk s.currentFrame = true)
    (hc : s.currentFrame < s.backend.count)
    (hr : s.backend.readOk s.currentFrame = true) :
    (s.next).2 = some (s.backend.frames s.currentFrame) := by
  by_cases ho : s.opened = true
  · have hre : s.reopen = s := by
      unfold Vcc.reopen
      rw [if_pos ho]
    simp only [Vcc.next, hre, Vcc.nextBody, if_pos hcf,
      setCurrentFrame_ok s s.currentFrame ho hseek]
    rw [readFrame_ok
      ({ s with pos := s.currentFrame, currentFrame := s.currentFrame }) ho hc hr]
  · have hok : s.backend.openOk = true := by
      rcases hop with h | h
      · exact absurd h ho
      · exact h
    have hre : s.reopen =
        { s with opened := true, pos := 0 } := by
      unfold Vcc.reopen
      rw [if_neg ho, hok]
    simp only [Vcc.next, hre, Vcc.nextBody, if_pos hcf,
      setCurrentFrame_ok ({ s with opened := true, pos := 0 }) s.currentFrame rfl hseek]
    rw [readFrame_ok
      ({ s with opened := true, pos := s.currentFrame, currentFrame := s.currentFrame })
      rfl hc hr]

/-! ## The starting-times loop computes the chained shifts -/

lemma convLoop_eq_chain (n : ℕ) :
    ∀ (tsl : List (List ℚ)) (starts : List ℚ) (j : ℕ),
      starts.length = j + 1 → n = j + tsl.length →
      convLoop n tsl starts j = chainStarts (starts.getD j 0) tsl := by
  intro tsl
  induction tsl with
  | nil => intro starts j h1 h2; rfl
  | cons ts rest ih =>
    intro starts j h1 h2
    rw [List.length_cons] at h2
    unfold convLoop chainStarts
    dsimp only
    by_cases hr : rest = []
    · subst hr
      rw [List.length_nil] at h2
      have hlen : ¬ (starts.length ≠ n) := by omega
      rw [if_neg hlen]
      rfl
    · have hpos : 0 < rest.length := List.length_pos.mpr hr
      have hlen : starts.length ≠ n := by omega
      rw [if_pos hlen]
      congr 1
      rw [ih (starts ++ [(ts.map (starts.getD j 0 + ·)).getLastD 0]) (j + 1)
        (by rw [List.length_append, h1]; rfl) (by omega)]
      congr 1
      have hget : (starts ++ [(ts.map (starts.getD j 0 + ·)).getLastD 0]).getD (j + 1) 0 =
          (ts.map (starts.getD j 0 + ·)).getLastD 0 := by
        have := List.getElem?_concat_length starts
          ((ts.map (starts.getD j 0 + ·)).getLastD 0)
        rw [List.getD_eq_getElem?_getD]
        rw [h1] at this
        rw [this]
        rfl
      rw [hget]

lemma chainStarts_length (b : ℚ) (tsl : List (List ℚ)) :
    (chainStarts b tsl).length = tsl.length := by
  induction tsl generalizing b with
  | nil => rfl
  | cons ts rest ih => simp [chainStarts, ih]

lemma chainStarts_getD_succ :
    ∀ (tsl : List (List ℚ)) (b : ℚ) (i : ℕ), i + 1 < tsl.length →
      (chainStarts b tsl).getD (i + 1) [] =
        (tsl.getD (i + 1) []).map
          ((((chainStarts b tsl).getD i []).getLastD 0) + ·) := by
  intro tsl
  induction tsl with
  | nil => intro b i h; simp at h
  | cons ts rest ih =>
    intro b i h
    match i with
    | 0 =>
      have hpos : 0 < rest.length := by
        simp only [List.length_cons] at h
        omega
      match rest, hpos with
      | r :: rrest, _ => rfl
    | Nat.succ k =>
      have hk : k + 1 < rest.length := by
        simp only [List.length_cons] at h
        omega
      show (chainStarts ((ts.map (b + ·)).getLastD 0) rest).getD (k + 1) [] = _
      rw [ih ((ts.map (b + ·)).getLastD 0) k hk]
      rfl

/-! ## Claim theorems: timestamp regularity and buffer sizing -/

/-- **C4 counterexample.**  The claim "for every timestamp series the
regularity check returns true exactly when all rounded consecutive
differences are equal" fails at the concrete one-element series `[0]`:
there are no differences, so "all differences are equal" holds
vacuously, yet `check_regular_timestamps [0]` is `false`. -/
theorem check_regular_timestamps_vacuous_cex :
    ¬ (check_regular_timestamps [0] = true ↔
        ∀ x ∈ roundedDiffs [0], ∀ y ∈ roundedDiffs [0], x = y) := by
  intro hiff
  have h2 : check_regular_timestamps [0] = true := by
    apply hiff.mpr
    intro x hx
    simp [roundedDiffs, npDiff] at hx
  have h3 : check_regular_timestamps [0] = false := rfl
  rw [h3] at h2
  exact Bool.noConfusion h2

/-- **C4 (amended).**  For every timestamp series with at least two
elements, `check_regular_timestamps` returns true exactly when all
consecutive differences, rounded to 9 decimal places, are equal; in
particular it returns true for `[0, 40, 80, 120]` and false for
`[0, 40, 85, 120]`. -/
theorem check_regular_timestamps_spec :
    (∀ ts : List ℚ, 2 ≤ ts.length →
      (check_regular_timestamps ts = true ↔
        ∀ x ∈ roundedDiffs ts, ∀ y ∈ roundedDiffs ts, x = y)) ∧
    check_regular_timestamps [0, 40, 80, 120] = true ∧
    check_regular_timestamps [0, 40, 85, 120] = false := by
  refine ⟨?_, ?_, ?_⟩
  · intro ts hts
    unfold check_regular_timestamps
    simp only [beq_iff_eq]
    rw [dedup_length_eq_one_iff]
    have hlen : (roundedDiffs ts).length = ts.length - 1 := by
      simp [roundedDiffs, npDiff_length]
    have hne : roundedDiffs ts ≠ [] := by
      intro hnil
      rw [hnil] at hlen
      simp at hlen
      omega
    exact ⟨fun h => h.2, fun h => ⟨hne, h⟩⟩
  · unfold check_regular_timestamps
    rw [roundedDiffs_ex1]
    rw [List.dedup_cons_of_mem (by simp), List.dedup_cons_of_mem (by simp),
      List.dedup_cons_of_not_mem (by simp)]
    rfl
  · unfold check_regular_timestamps
    rw [roundedDiffs_ex2]
    rw [List.dedup_cons_of_not_mem (by norm_num),
      List.dedup_cons_of_not_mem (by norm_num),
      List.dedup_cons_of_not_mem (by simp)]
    rfl

/-- **C4 witness**: the amended equivalence applied at the concrete
series `[0, 40, 80, 120]`. -/
theorem check_regular_timestamps_spec_witness :
    check_regular_timestamps [0, 40, 80, 120] = true ↔
      ∀ x ∈ roundedDiffs [0, 40, 80, 120],
        ∀ y ∈ roundedDiffs [0, 40, 80, 120], x = y :=
  check_regular_timestamps_spec.1 [0, 40, 80, 120] (by norm_num)

/-- **C9.**  For every series with fewer than two elements the regularity
check returns false, although "all rounded consecutive differences are
equal" holds vacuously (there are none). -/
theorem check_regular_timestamps_short (ts : List ℚ) (h : ts.length < 2) :
    check_regular_timestamps ts = false ∧
    (∀ x ∈ roundedDiffs ts, ∀ y ∈ roundedDiffs ts, x = y) := by
  have hlen : (roundedDiffs ts).length = 0 := by
    simp [roundedDiffs, npDiff_length]
    omega
  have hnil : roundedDiffs ts = [] := List.length_eq_zero.mp hlen
  constructor
  · unfold check_regular_timestamps
    rw [hnil]
    rfl
  · intro x hx
    rw [hnil] at hx
    simp at hx

/-- **C9 witness**: the theorem applied at the one-element series `[5]`. -/
theorem check_regular_timestamps_short_witness :
    [(5 : ℚ)].length < 2 ∧ check_regular_timestamps [5] = false :=
  ⟨by norm_num, (check_regular_timestamps_short [5] (by norm_num)).1⟩

/-- **C3.**  In embedded mode the uncompressed-size estimate is
`file_size * 70`; whenever eager loading (`chunk_data = False`) was
requested and the estimate exceeds available memory, the policy
overrides to chunked mode and emits the (non-fatal) memory-pressure
warning — the policy function returns instead of raising, so conversion
proceeds.  In particular `file_size = 1000000` gives estimate
`70000000`, and with `available_memory = 50000000` both the override
and the warning occur. -/
theorem bufferPolicy_override (fs am : ℕ) (h : am < uncompressedEstimate fs) :
    bufferPolicy false fs am = (true, true) ∧
    uncompressedEstimate 1000000 = 70000000 ∧
    bufferPolicy false 1000000 50000000 = (true, true) := by
  refine ⟨?_, rfl, rfl⟩
  unfold bufferPolicy
  simp [Nat.le_of_lt h]

/-- **C3 witness**: the policy theorem applied at the spec's concrete
sizes. -/
theorem bufferPolicy_override_witness :
    50000000 < uncompressedEstimate 1000000 ∧
    bufferPolicy false 1000000 50000000 = (true, true) :=
  ⟨by norm_num [uncompressedEstimate],
    (bufferPolicy_override 1000000 50000000
      (by norm_num [uncompressedEstimate])).1⟩

/-! ## Claim theorems: `VideoCaptureContext` -/

/-- C1 counterexample: on an open stub-mode handle over a 3-frame file
the frame-count operation returns 10, not `min(true_count, 10) = 3`. -/
theorem stub_frame_count_cex :
    stubHandle3.get_movie_frame_count = 10 ∧
    min stubHandle3.backend.count 10 = 3 ∧
    stubHandle3.get_movie_frame_count ≠ min stubHandle3.backend.count 10 := by
  refine ⟨rfl, by decide, by decide⟩

/-- C1 (amended): when stub mode is requested the frame-count operation
returns the constant 10, regardless of the true decodable frame count —
also for a video with fewer than 10 true frames. -/
theorem stub_frame_count (s : Vcc) (h : s.stub = true) :
    s.get_movie_frame_count = 10 := by
  simp [Vcc.get_movie_frame_count, h]

/-- C1 witness: the amended theorem applied to the concrete stub handle. -/
theorem stub_frame_count_witness :
    stubHandle3.stub = true ∧ stubHandle3.get_movie_frame_count = 10 :=
  ⟨rfl, stub_frame_count stubHandle3 rfl⟩

/-- C5: on a handle of a well-formed file (opening, every seek and every
in-range decode succeed), a random-access read of any index below the
frame count succeeds (never raises), and a read of any index at or above
the frame count always raises the out-of-range assertion. -/
theorem read_frame_total (s : Vcc)
    (hopen : s.opened = true)
    (hseek : ∀ n, s.backend.seekOk n = true)
    (hread : ∀ i, i < s.backend.count → s.backend.readOk i = true)
    (hframe : s.frame.isSome = true) :
    (∀ i, i < s.get_movie_frame_count → ((s.get_movie_frame i).2).isOk = true) ∧
    (∀ i, s.get_movie_frame_count ≤ i →
      (s.get_movie_frame i).2 =
        Except.error
          (CvErr.assertionError "frame number is greater than length of movie")) := by
  constructor
  · intro i hi
    by_cases hc : i < s.backend.count
    · rw [get_movie_frame_read_ok s i hopen hi (hseek i) (hseek 0) hc (hread i hc)]
      rfl
    · rcases Nat.eq_zero_or_pos i with hz | hz
      · subst hz
        rw [get_movie_frame_fail_zero s hopen hi (hseek 0) (Or.inr hc)]
        rfl
      · obtain ⟨f0, hf0⟩ := Option.isSome_iff_exists.mp hframe
        rw [get_movie_frame_fail_pos s i f0 hopen hi (hseek i) (hseek 0)
          (Or.inr hc) hz hf0]
        rfl
  · intro i hi
    exact congrArg Prod.snd (get_movie_frame_oob s i hopen (Nat.not_lt.mpr hi))

/-- C5 witness: the theorem applied to the two-frame handle, at the
in-range index 0 and at the out-of-range index 5. -/
theorem read_frame_total_witness :
    ((wfHandle.get_movie_frame 0).2).isOk = true ∧
    (wfHandle.get_movie_frame 5).2 =
      Except.error
        (CvErr.assertionError "frame number is greater than length of movie") :=
  ⟨(read_frame_total wfHandle rfl (fun _ => rfl) (fun _ _ => rfl) rfl).1 0
      (by decide),
    (read_frame_total wfHandle rfl (fun _ => rfl) (fun _ _ => rfl) rfl).2 5
      (by decide)⟩

/-- C2: on a decode failure at index 0 the read returns no value and
constructing a handle on such a file signals the unreadable-file
assertion; a decode failure at index `i > 0` yields a nan buffer shaped
like a normal frame; reads of other decodable indices are unaffected. -/
theorem decode_failure_policy (s : Vcc) (f0 : Frame) (i : ℕ)
    (hopen : s.opened = true) (hf : s.frame = some f0)
    (hseek : ∀ n, s.backend.seekOk n = true)
    (hfc : i < s.get_movie_frame_count)
    (hfail : s.backend.readOk i = false) :
    (i = 0 → (s.get_movie_frame 0).2 = Except.ok Option.none) ∧
    (0 < i → (s.get_movie_frame i).2 = Except.ok (some (nanFrame f0.shape))) ∧
    (∀ j, j < s.get_movie_frame_count → j < s.backend.count →
      s.backend.readOk j = true →
      (s.get_movie_frame j).2 = Except.ok (some (s.backend.frames j))) ∧
    (∀ (b : Backend) (st : Bool), b.openOk = true → b.seekOk 0 = true →
      b.readOk 0 = false → 0 < b.count →
      Vcc.init b st =
        Except.error
          (CvErr.assertionError "unable to read the movie file provided")) := by
  refine ⟨?_, ?_, ?_, ?_⟩
  · intro hz
    subst hz
    rw [get_movie_frame_fail_zero s hopen hfc (hseek 0) (Or.inl hfail)]
  · intro hz
    rw [get_movie_frame_fail_pos s i f0 hopen hfc (hseek i) (hseek 0)
      (Or.inl hfail) hz hf]
  · intro j hj hjc hjr
    rw [get_movie_frame_read_ok s j hopen hj (hseek j) (hseek 0) hjc hjr]
  · exact init_read0_fail

/-- C2 witness: on a 3-frame file whose frame 1 fails to decode, the
read at index 1 yields the nan buffer, the read at index 2 the true
frame; a file whose frame 0 fails makes construction signal failure. -/
theorem decode_failure_policy_witness :
    (failAt1Handle.get_movie_frame 1).2 =
      Except.ok (some (nanFrame okFrame.shape)) ∧
    (failAt1Handle.get_movie_frame 2).2 =
      Except.ok (some okFrame) ∧
    Vcc.init failAt0Backend false =
      Except.error
        (CvErr.assertionError "unable to read the movie file provided") :=
  ⟨(decode_failure_policy failAt1Handle okFrame 1 rfl rfl (fun _ => rfl)
      (by decide) (by decide)).2.1 (by decide),
    (decode_failure_policy failAt1Handle okFrame 1 rfl rfl (fun _ => rfl)
      (by decide) (by decide)).2.2.1 2 (by decide) (by decide) (by decide),
    (decode_failure_policy failAt1Handle okFrame 1 rfl rfl (fun _ => rfl)
      (by decide) (by decide)).2.2.2 failAt0Backend false rfl rfl rfl
      (by decide)⟩

/-- C8: closing a handle (`__exit__`, which calls `release`) is
idempotent — a second close neither raises (it is a total function)
nor alters the already-released state. -/
theorem close_idempotent (s : Vcc) :
    s.exitCtx.exitCtx = s.exitCtx ∧ s.exitCtx.opened = false :=
  ⟨rfl, rfl⟩

/-- C7 counterexample: iterating the two-frame handle to exhaustion
raises end-of-sequence and resets the cursor, but one more step on the
same, never re-opened-by-the-caller handle silently yields a frame
again instead of failing cleanly. -/
theorem second_iteration_cex :
    ((wfHandle.next).2).isSome = true ∧
    (((wfHandle.next).1.next).2).isSome = true ∧
    (((wfHandle.next).1.next).1.next).2 = Option.none ∧
    (((wfHandle.next).1.next).1.next).1.currentFrame = 0 ∧
    (((wfHandle.next).1.next).1.next).1.opened = false ∧
    (((((wfHandle.next).1.next).1.next).1.next).2).isSome = true :=
  ⟨rfl, rfl, rfl, rfl, rfl, rfl⟩

/-- C7 (amended): stepping past the last frame raises end-of-sequence
(not an error), resets the cursor to 0 and releases the capture; but
because `__next__` reopens a released capture, a second iteration over
the same unreopened handle silently yields the frame sequence again
(starting at frame 0) rather than failing or being prevented. -/
theorem next_end_and_restart (s : Vcc) (h : s.frameCountCache ≤ s.currentFrame) :
    (s.next).2 = Option.none ∧
    (s.next).1.currentFrame = 0 ∧
    (s.next).1.opened = false ∧
    (s.backend.openOk = true → s.backend.seekOk 0 = true →
      s.backend.readOk 0 = true → 0 < s.backend.count →
      0 < s.frameCountCache →
      ((s.next).1.next).2 = some (s.backend.frames 0)) := by
  have he := next_exhausted s h
  refine ⟨by rw [he], by rw [he]; rfl, by rw [he]; rfl, ?_⟩
  intro hok hs0 hr0 hcnt hcache
  rw [he]
  set t : Vcc := Vcc.release { s.reopen with currentFrame := 0 } with ht
  have h1 : t.currentFrame = 0 := rfl
  have h2 : t.backend = s.backend := reopen_backend s
  have h3 : t.frameCountCache = s.frameCountCache := reopen_frameCountCache s
  have hy := next_yield t (by rw [h1, h3]; exact hcache)
    (Or.inr (by rw [h2]; exact hok))
    (by rw [h1, h2]; exact hs0)
    (by rw [h1, h2]; exact hcnt)
    (by rw [h1, h2]; exact hr0)
  rw [hy, h1, h2]

/-- C7 witness: the amended theorem applied to the exhausted concrete
handle — the extra step raises end-of-sequence, then a further step
yields frame 0 again. -/
theorem next_end_and_restart_witness :
    exhaustedHandle.frameCountCache ≤ exhaustedHandle.currentFrame ∧
    (exhaustedHandle.next).2 = Option.none ∧
    ((exhaustedHandle.next).1.next).2 = some okFrame :=
  ⟨by decide,
    (next_end_and_restart exhaustedHandle (by decide)).1,
    (next_end_and_restart exhaustedHandle (by decide)).2.2.2 rfl rfl rfl
      (by decide) (by decide)⟩

/-- C10: any exception raised inside the `try` body of `__next__` is
converted into end-of-sequence — `__next__` returns the state at the
raise together with `StopIteration` (`Option.none`), the only signal it
ever emits (its result type rules out any other exception). -/
theorem next_swallows_exceptions (s s' : Vcc) (e : CvErr)
    (h : (s.reopen).nextBody = (s', Except.error e)) :
    s.next = (s', Option.none) := by
  simp only [Vcc.next]
  rw [h]

/-- C10 witness: on a handle whose seeks all fail, the step body raises
`ValueError` and `__next__` turns it into end-of-sequence. -/
theorem next_swallows_exceptions_witness :
    badSeekHandle.next = (badSeekHandle, Option.none) :=
  next_swallows_exceptions badSeekHandle badSeekHandle
    (CvErr.valueError ("could not set frame no " ++ toString 0)) rfl

/-- C6: with the starting-times list omitted the conversion shifts the
first file's timestamps by 0.0 and starts each subsequent file at the
last computed timestamp of the previous file; an explicit list is
accepted when it is in one-to-one correspondence with the file paths
and rejected with the assertion message otherwise. -/
theorem starting_times_spec (fileTs : List (List ℚ))
    (hne : ∀ ts ∈ fileTs, ts ≠ []) :
    (∃ out, runConvTimestamps fileTs Option.none = Except.ok out ∧
      out.length = fileTs.length ∧
      (0 < fileTs.length → out.getD 0 [] = (fileTs.getD 0 []).map (0 + ·)) ∧
      (∀ i, i + 1 < fileTs.length →
        out.getD (i + 1) [] =
          (fileTs.getD (i + 1) []).map (((out.getD i []).getLastD 0) + ·))) ∧
    (∀ st : List ℚ, st.length = fileTs.length →
      (runConvTimestamps fileTs (some st)).isOk = true) ∧
    (∀ st : List ℚ, st.length ≠ fileTs.length →
      runConvTimestamps fileTs (some st) =
        Except.error ("Argument 'starting_times' must be a list of floats " ++
          "in one-to-one correspondence with 'file_paths'!")) := by
  refine ⟨⟨chainStarts 0 fileTs, ?_, chainStarts_length 0 fileTs, ?_, ?_⟩, ?_, ?_⟩
  · unfold runConvTimestamps
    dsimp only
    rw [convLoop_eq_chain fileTs.length fileTs [0] 0 rfl (Nat.zero_add _).symm]
    rfl
  · intro hpos
    match fileTs, hpos with
    | ts :: rest, _ => rfl
  · intro i hi
    exact chainStarts_getD_succ fileTs 0 i hi
  · intro st hst
    unfold runConvTimestamps
    dsimp only
    rw [if_pos hst]
    rfl
  · intro st hst
    unfold runConvTimestamps
    dsimp only
    rw [if_neg hst]

/-- C6 witness: a two-file conversion accepts a matching explicit
starting-times list and rejects a three-element one. -/
theorem starting_times_spec_witness :
    (runConvTimestamps [[(0 : ℚ), 1, 2], [0, 2, 4]] (some [5, 6])).isOk = true ∧
    runConvTimestamps [[(0 : ℚ), 1, 2], [0, 2, 4]] (some [5, 6, 7]) =
      Except.error ("Argument 'starting_times' must be a list of floats " ++
        "in one-to-one correspondence with 'file_paths'!") :=
  ⟨(starting_times_spec [[(0 : ℚ), 1, 2], [0, 2, 4]] (by decide)).2.1 [5, 6]
      (by decide),
    (starting_times_spec [[(0 : ℚ), 1, 2], [0, 2, 4]] (by decide)).2.2 [5, 6, 7]
      (by decide)⟩

end NwbConv
